import Mathlib

/-!
Verification of the EduGPT document-generation pipeline (src/app.py).

Text is modelled as `List Char`, PDF bytes as `List Nat`.  The two regex
substitutions of `decorate_equations` are modelled by a fuel-indexed
left-to-right scan implementing Python's leftmost, lazy (`.+?`) matching:
at each position, if the opening delimiter matches, the content is the
shortest non-empty stretch followed by the closing delimiter; otherwise the
scan advances one character.  Fuel is the length of the input, which always
suffices because each replacement consumes at least three characters.
-/

namespace EduGPT

/-- The characters Python's `str.strip()` removes (ASCII whitespace). -/
def pyIsSpace (c : Char) : Bool :=
  c = ' ' || c = '\t' || c = '\n' || c = '\r' || c = Char.ofNat 11 || c = Char.ofNat 12

/-- Drop leading Python whitespace. -/
def dropLeadingWs : List Char → List Char
  | [] => []
  | c :: cs => if pyIsSpace c then dropLeadingWs cs else c :: cs

/-- Python `s.strip()`: drop leading and trailing whitespace. -/
def pyStrip (s : List Char) : List Char :=
  (dropLeadingWs (dropLeadingWs s).reverse).reverse

/-- Python `(x or d)` for an optional string `x`: `None` and `""` are falsy. -/
def pyOr (v : Option (List Char)) (d : List Char) : List Char :=
  match v with
  | none => d
  | some s => if s = [] then d else s

/-- Python `(s or d)` for a plain string `s`: only `""` is falsy. -/
def pyOrStr (s d : List Char) : List Char :=
  if s = [] then d else s

/-- Python `s.replace(a, b)` for single characters. -/
def pyReplaceChar (s : List Char) (a b : Char) : List Char :=
  s.map (fun c => if c = a then b else c)

/-- The single-quote character (U+0027). -/
def squote : Char := Char.ofNat 39

/-- markupsafe escaping of one character (`escape` in app.py's imports). -/
def escChar (c : Char) : List Char :=
  if c = '&' then "&amp;".toList
  else if c = '<' then "&lt;".toList
  else if c = '>' then "&gt;".toList
  else if c = '"' then "&#34;".toList
  else if c = squote then "&#39;".toList
  else [c]

/-- markupsafe `escape` on a string. -/
def escape (s : List Char) : List Char :=
  (s.map escChar).flatten

/-- Whether `pat` occurs as a contiguous substring of the text. -/
def containsSub (pat : List Char) : List Char → Bool
  | [] => pat.isPrefixOf []
  | c :: cs => pat.isPrefixOf (c :: cs) || containsSub pat cs

/-!  Lazy regex matching for `\\[(.+?)\\]` and `\$(.+?)\$` (both DOTALL). -/

/-- Scan for the first position where the closing delimiter `c0 :: ct`
occurs; everything before it is match content.  Returns the content chunk
and the text after the delimiter. -/
def scanClose (c0 : Char) (ct : List Char) : List Char → Option (List Char × List Char)
  | [] => none
  | c :: cs =>
    if (c0 :: ct).isPrefixOf (c :: cs) then some ([], (c :: cs).drop (c0 :: ct).length)
    else
      match scanClose c0 ct cs with
      | some (a, r) => some (c :: a, r)
      | none => none

/-- Lazy `(.+?)` up to the closing delimiter `c0 :: ct`: the content is at
least one character, then the shortest extension after which the closing
delimiter matches. -/
def findClose (c0 : Char) (ct : List Char) : List Char → Option (List Char × List Char)
  | [] => none
  | c :: cs =>
    match scanClose c0 ct cs with
    | some (a, r) => some (c :: a, r)
    | none => none

/-- One pass of Python `re.sub` for the pattern `open (.+?) close` with a
replacement function, scanning left to right; `fuel` bounds the recursion
and never runs out when it starts at the text's length. -/
def subScanF (o0 : Char) (ot : List Char) (c0 : Char) (ct : List Char)
    (repl : List Char → List Char) : Nat → List Char → List Char
  | 0, l => l
  | _ + 1, [] => []
  | fuel + 1, c :: cs =>
    if (o0 :: ot).isPrefixOf (c :: cs) then
      match findClose c0 ct ((c :: cs).drop (o0 :: ot).length) with
      | some (content, rest) => repl content ++ subScanF o0 ot c0 ct repl fuel rest
      | none => c :: subScanF o0 ot c0 ct repl fuel cs
    else c :: subScanF o0 ot c0 ct repl fuel cs

/-- Whether the scan of `subScanF` finds no match anywhere in the text. -/
def matchFreeF (o0 : Char) (ot : List Char) (c0 : Char) (ct : List Char) :
    Nat → List Char → Bool
  | 0, _ => true
  | _ + 1, [] => true
  | fuel + 1, c :: cs =>
    if (o0 :: ot).isPrefixOf (c :: cs) then
      match findClose c0 ct ((c :: cs).drop (o0 :: ot).length) with
      | some _ => false
      | none => matchFreeF o0 ot c0 ct fuel cs
    else matchFreeF o0 ot c0 ct fuel cs

/-- Replacement for a block match: `block_sub` in app.py. -/
def block_sub (expr : List Char) : List Char :=
  "<div class=".toList ++ [squote] ++ "equation-block".toList ++ [squote] ++
    "><code>".toList ++ escape (pyStrip expr) ++ "</code></div>".toList

/-- Replacement for an inline match: `inline_sub` in app.py. -/
def inline_sub (expr : List Char) : List Char :=
  "<span class=".toList ++ [squote] ++ "equation-inline".toList ++ [squote] ++
    "><code>".toList ++ escape (pyStrip expr) ++ "</code></span>".toList

/-- `_equation_block.sub(block_sub, text)`: replace every `\[...\]`. -/
def blockSub (l : List Char) : List Char :=
  subScanF '\\' ['['] '\\' [']'] block_sub l.length l

/-- `_equation_inline.sub(inline_sub, text)`: replace every `$...$`. -/
def inlineSub (l : List Char) : List Char :=
  subScanF '$' [] '$' [] inline_sub l.length l

/-- `decorate_equations` in app.py: the block pass, then the inline pass on
its output. -/
def decorate_equations (l : List Char) : List Char :=
  inlineSub (blockSub l)

/-- The text has no `\[...\]` match left for the block rule. -/
def noBlockPair (l : List Char) : Bool :=
  matchFreeF '\\' ['['] '\\' [']'] l.length l

/-- The text has no `$...$` match left for the inline rule. -/
def noInlinePair (l : List Char) : Bool :=
  matchFreeF '$' [] '$' [] l.length l

/-- Number of dollar-sign characters in the text. -/
def dollarCount : List Char → Nat
  | [] => 0
  | c :: cs => (if c = '$' then 1 else 0) + dollarCount cs

/-! The `DEFAULTS` table of app.py. -/

/-- `DEFAULTS["grade"]`. -/
def DEFAULTS_grade : List Char := "Grade 10".toList

/-- `DEFAULTS["duration_weeks"]`. -/
def DEFAULTS_duration_weeks : List Char := "4".toList

/-- `DEFAULTS["driving_question"]`. -/
def DEFAULTS_driving_question : List Char :=
  "How might we design and validate a solution that improves a real-world system?".toList

/-- `DEFAULTS["constraints"]`. -/
def DEFAULTS_constraints : List Char :=
  "Time, budget, safety, and resource limitations typical for this grade level.".toList

/-- `DEFAULTS["pbl_rules"]`. -/
def DEFAULTS_pbl_rules : List Char :=
  ("- Authentic problem & public audience\n- Student inquiry, iteration, and reflection\n" ++
   "- Clear success criteria & rubric\n- Differentiation/UDL where appropriate\n" ++
   "- Evidence at milestones (brief overview only)").toList

/-- A JSON body for `/generate`.  The route calls `data.get(...)` for
exactly six scalar keys, each absent or a string.  A body may additionally
carry a `sections` key holding an ordered list of requested output section
names; app.py never reads such a key — no `data.get("sections")` (or any
seventh key) appears in the route — so the field is recorded here but
consumed nowhere in the pipeline. -/
structure GenRequest where
  title : Option (List Char)
  topic : Option (List Char)
  grade : Option (List Char)
  duration_weeks : Option (List Char)
  driving_question : Option (List Char)
  constraints : Option (List Char)
  sections : Option (List (List Char))

/-- `(data.get("title") or "").strip()`. -/
def normTitle (req : GenRequest) : List Char := pyStrip (pyOr req.title [])

/-- `(data.get("topic") or "").strip()`. -/
def normTopic (req : GenRequest) : List Char := pyStrip (pyOr req.topic [])

/-- `(data.get("grade") or DEFAULTS["grade"]).strip()`. -/
def normGrade (req : GenRequest) : List Char := pyStrip (pyOr req.grade DEFAULTS_grade)

/-- `(data.get("duration_weeks") or DEFAULTS["duration_weeks"]).strip()`. -/
def normDuration (req : GenRequest) : List Char :=
  pyStrip (pyOr req.duration_weeks DEFAULTS_duration_weeks)

/-- `(data.get("driving_question") or DEFAULTS["driving_question"]).strip()`. -/
def normDrivingQuestion (req : GenRequest) : List Char :=
  pyStrip (pyOr req.driving_question DEFAULTS_driving_question)

/-- `(data.get("constraints") or DEFAULTS["constraints"]).strip()`. -/
def normConstraints (req : GenRequest) : List Char :=
  pyStrip (pyOr req.constraints DEFAULTS_constraints)

/-- The fixed `system_prompt` string of the `/generate` route. -/
def system_prompt : List Char :=
  ("You are a precise PBL assignment writer. Produce a professional, teacher-ready project handout " ++
   "in clean HTML (BODY FRAGMENT ONLY). Use <h2>, <h3>, <p>, <ul>, <ol>, <table>, <thead>, <tbody>, " ++
   "<tr>, <th>, <td>, and <div> (with class names if needed). Do NOT return <html> or <body> tags. " ++
   "Focus on Introduction/Background and Detailed Requirements. Include relevant analytical formulas/" ++
   "equations written in LaTeX-like notation using $...$ (inline) or \\[...\\] (block). " ++
   "Provide a concise milestone overview (single short table) but avoid week-by-week schedules.").toList

/-- The constant REQUIRED SECTIONS block of the user brief: the fixed ordered
list of output section headings. -/
def requiredSectionsBlock : List Char :=
  ("REQUIRED SECTIONS (USE THESE EXACT TITLES AS <h2>):\n" ++
   "1) Introduction / Background\n" ++
   "2) Objectives\n" ++
   "3) Detailed Requirements (with related equations if relevant)\n" ++
   "4) Activities & Procedures\n" ++
   "5) Deliverables\n" ++
   "6) Assessment Rubric (4 levels: 4=Exceeds, 3=Meets, 2=Developing, 1=Beginning)\n" ++
   "7) Materials\n" ++
   "8) Milestone Overview").toList

/-- The constant STYLE & CONTENT RULES tail of the user brief. -/
def briefStyleRules : List Char :=
  ("\n\nSTYLE & CONTENT RULES\n" ++
   "- BODY FRAGMENT ONLY (no <html> or <body>).\n" ++
   "- Use informative paragraphs and bullet/numbered lists.\n" ++
   "- Include at least 1–2 equations that fit the topic, written as $...$ or \\[...\\].\n" ++
   "- Prefer concrete inputs, checks, and constraints over generic fluff.\n" ++
   "- Milestone Overview: a single brief table (no full weekly breakdown).\n" ++
   "- Keep tone academic, clear, and immediately usable in class.\n").toList

/-- The `user_brief` f-string of the `/generate` route. -/
def user_brief (title topic grade duration_weeks driving_question constraints
    pbl_rules : List Char) : List Char :=
  "\nPROJECT BRIEF INPUTS\n- Title: ".toList ++ title ++
  "\n- Topic/Subject: ".toList ++ topic ++
  "\n- Grade/Level: ".toList ++ grade ++
  "\n- Duration: ".toList ++ duration_weeks ++
  " weeks\n- Driving Question: ".toList ++ driving_question ++
  "\n- Constraints: ".toList ++ constraints ++
  "\n\nPBL RULES TO REFLECT\n".toList ++ pbl_rules ++
  "\n\n".toList ++ requiredSectionsBlock ++ briefStyleRules

/-- `build_cover_html` in app.py. -/
def build_cover_html (title topic grade duration_weeks driving_question
    constraints : List Char) : List Char :=
  let safe_title := escape (pyOrStr title "Project".toList)
  let safe_topic := escape (pyOrStr topic "—".toList)
  let safe_grade := escape (pyOrStr grade "—".toList)
  let safe_dur := escape (pyOrStr duration_weeks "—".toList)
  let safe_dq := escape (pyOrStr driving_question "—".toList)
  let safe_con := escape (pyOrStr constraints "—".toList)
  "\n<div class=\"cover\">\n  <div class=\"brandbar\"></div>\n  <h1>".toList ++ safe_title ++
  "</h1>\n  <h3>Topic: ".toList ++ safe_topic ++
  "</h3>\n  <table class=\"meta\">\n    <tr><th>Grade/Level</th><td>".toList ++ safe_grade ++
  "</td></tr>\n    <tr><th>Duration</th><td>".toList ++ safe_dur ++
  " week(s)</td></tr>\n    <tr><th>Driving Question</th><td>".toList ++ safe_dq ++
  "</td></tr>\n    <tr><th>Constraints</th><td>".toList ++ safe_con ++
  "</td></tr>\n  </table>\n</div>\n<div class=\"pagebreak\"></div>\n".toList

/-- Everything `build_shell_html` emits before the interpolated cover. -/
def shellPre : List Char :=
  ("<!doctype html>\n<html>\n<head>\n<meta charset=\"utf-8\" />\n" ++
   "<title>Project Brief</title>\n<style>\n" ++
   "  /* Overall blue background */\n" ++
   "  body \x7b\n    background: #e6f0ff; /* light blue */\n" ++
   "    font-family: DejaVu Sans, Arial, sans-serif;\n" ++
   "    font-size: 11.5pt; line-height: 1.45; margin: 0; color: #223;\n  \x7d\n" ++
   "  /* Paper card */\n" ++
   "  .paper \x7b\n    background: #ffffff;\n    margin: 0.6in auto;\n    width: 7.5in;\n" ++
   "    padding: 0.8in;\n    border: 1px solid #c9cfdf;\n  \x7d\n\n" ++
   "  /* Typography */\n" ++
   "  h1 \x7b font-size: 22pt; margin: 0.1em 0 0.2em; text-align: center; color: #0f1d5a; \x7d\n" ++
   "  h2 \x7b font-size: 15pt; border-bottom: 1px solid #9fb2e6; padding-bottom: 4px; margin-top: 1.1em; color: #0f1d5a; \x7d\n" ++
   "  h3 \x7b font-size: 12.5pt; margin-top: 0.9em; color: #1d2f7a; \x7d\n" ++
   "  p  \x7b margin: 0.4em 0; \x7d\n" ++
   "  ul, ol \x7b margin: 0.4em 0 0.4em 1.2em; \x7d\n\n" ++
   "  /* Tables */\n" ++
   "  table \x7b border-collapse: collapse; width: 100%; margin: 0.6em 0; \x7d\n" ++
   "  th, td \x7b border: 1px solid #aab7e6; padding: 6px; text-align: left; vertical-align: top; \x7d\n" ++
   "  thead th \x7b background: #edf2ff; color: #0f1d5a; \x7d\n" ++
   "  .meta \x7b margin: 0.35in auto 0; width: 85%; \x7d\n" ++
   "  .meta th \x7b width: 28%; background: #edf2ff; color: #0f1d5a; \x7d\n\n" ++
   "  /* Cover */\n" ++
   "  .cover \x7b text-align: center; margin: 0 auto 0.15in; \x7d\n" ++
   "  .brandbar \x7b height: 12px; background: #0f1d5a; margin-bottom: 14px; \x7d\n\n" ++
   "  /* Info boxes */\n" ++
   "  .box \x7b border: 1px solid #c9cfdf; background: #f5f7fc; padding: 10px; margin: 0.7em 0; \x7d\n" ++
   "  .muted \x7b color: #555; \x7d\n\n" ++
   "  /* Equation presentation */\n" ++
   "  code \x7b font-family: \"DejaVu Sans Mono\", monospace; font-size: 10.5pt; \x7d\n" ++
   "  .equation-block \x7b\n    border: 1px solid #7ea0ff; background: #eef3ff; padding: 8px; margin: 8px 0;\n  \x7d\n" ++
   "  .equation-inline \x7b\n    border: 1px solid #c8d6ff; background: #f4f7ff; padding: 1px 3px;\n  \x7d\n\n" ++
   "  /* Page breaks */\n" ++
   "  .pagebreak \x7b page-break-before: always; \x7d\n" ++
   "</style>\n</head>\n<body>\n  <div class=\"paper\">\n    ").toList

/-- `build_shell_html` in app.py: wrap cover + body into the styled page. -/
def build_shell_html (cover_html body_html : List Char) : List Char :=
  shellPre ++ cover_html ++ "\n    ".toList ++ body_html ++
  "\n  </div>\n</body>\n</html>".toList

/-! The artifact store (`GENERATED`) and the `/download` route. -/

/-- The `GENERATED` dict: identifier → PDF bytes, most recent binding first. -/
def Store : Type := List (List Char × List Nat)

/-- `GENERATED.get(file_id)`: dict lookup. -/
def storeGet : Store → List Char → Option (List Nat)
  | [], _ => none
  | (k, v) :: rest, file_id => if k = file_id then some v else storeGet rest file_id

/-- `file_id = str(uuid.uuid4()); GENERATED[file_id] = pdf_bytes`: store the
bytes under the fresh identifier and hand the identifier back. -/
def put (store : Store) (file_id : List Char) (pdf_bytes : List Nat) : Store × List Char :=
  ((file_id, pdf_bytes) :: store, file_id)

/-- Outcome of the `/download/<file_id>` route. -/
inductive DlResult
  | notFound
  | file (pdf : List Nat) (download_name : List Char)
deriving DecidableEq

/-- The `download_name` used by `send_file`. -/
def dlFilename : List Char := "project_brief.pdf".toList

/-- The `/download/<file_id>` route: look the id up, `abort(404)` when the
value is falsy (absent key or empty bytes), else send the bytes; the route
performs no write, so the store comes back unchanged. -/
def download (store : Store) (file_id : List Char) : DlResult × Store :=
  (match storeGet store file_id with
   | none => DlResult.notFound
   | some pdf => if pdf = [] then DlResult.notFound else DlResult.file pdf dlFilename,
   store)

/-! The `/generate` route. -/

/-- The validation message of the `/generate` route. -/
def validationMsg : List Char := "Title and Topic are required.".toList

/-- `f"{title.replace(' ', '_')}.pdf"`: the suggested filename. -/
def suggested_filename (title : List Char) : List Char :=
  pyReplaceChar title ' ' '_' ++ ".pdf".toList

/-- What one call of the `/generate` route produces: the JSON response
fields, the HTTP status, the store after the call, and an observation of
which external calls were made (`backendCalled`, `rendererCalled`) and of
the HTML handed to the renderer (`rendererInput`). -/
structure GenResult where
  status : Nat
  ok : Bool
  error : Option (List Char)
  result_html : Option (List Char)
  pdf_id : Option (List Char)
  pdf_filename : Option (List Char)
  store : Store
  backendCalled : Bool
  rendererCalled : Bool
  rendererInput : Option (List Char)

/-- The `/generate` route of app.py.  The completion backend is a function
from the two prompt strings to either an error message or an optional
completion body (`None` for a null body); the PDF renderer is a function
from the full HTML to either an error message or PDF bytes; `file_id` is
the fresh `uuid4` identifier used on success. -/
def generate (req : GenRequest) (store : Store)
    (backend : List Char → List Char → Except (List Char) (Option (List Char)))
    (renderer : List Char → Except (List Char) (List Nat))
    (file_id : List Char) : GenResult :=
  let title := normTitle req
  let topic := normTopic req
  if title = [] ∨ topic = [] then
    { status := 400, ok := false, error := some validationMsg, result_html := none,
      pdf_id := none, pdf_filename := none, store := store,
      backendCalled := false, rendererCalled := false, rendererInput := none }
  else
    let grade := normGrade req
    let duration_weeks := normDuration req
    let driving_question := normDrivingQuestion req
    let constraints := normConstraints req
    let pbl_rules := DEFAULTS_pbl_rules
    match backend system_prompt
        (user_brief title topic grade duration_weeks driving_question constraints pbl_rules) with
    | Except.error e =>
      { status := 500, ok := false, error := some e, result_html := none,
        pdf_id := none, pdf_filename := none, store := store,
        backendCalled := true, rendererCalled := false, rendererInput := none }
    | Except.ok content =>
      let fragment := decorate_equations (pyStrip (pyOr content []))
      let cover_html := build_cover_html title topic grade duration_weeks driving_question constraints
      let full_html := build_shell_html cover_html fragment
      match renderer full_html with
      | Except.error e =>
        { status := 500, ok := false, error := some e, result_html := none,
          pdf_id := none, pdf_filename := none, store := store,
          backendCalled := true, rendererCalled := true, rendererInput := some full_html }
      | Except.ok pdf_bytes =>
        let p := put store file_id pdf_bytes
        { status := 200, ok := true, error := none, result_html := some fragment,
          pdf_id := some p.2, pdf_filename := some (suggested_filename title),
          store := p.1, backendCalled := true, rendererCalled := true,
          rendererInput := some full_html }

/-! Helper lemmas about the substitution scan. -/

/-- When the scan finds no match, the substitution returns the text
unchanged (for any fuel). -/
theorem subScanF_eq_self (o0 : Char) (ot : List Char) (c0 : Char) (ct : List Char)
    (repl : List Char → List Char) :
    ∀ (fuel : Nat) (l : List Char), matchFreeF o0 ot c0 ct fuel l = true →
      subScanF o0 ot c0 ct repl fuel l = l := by
  intro fuel
  induction fuel with
  | zero => intro l _; rfl
  | succ n ih =>
    intro l h
    cases l with
    | nil => rfl
    | cons c cs =>
      cases hp : (o0 :: ot).isPrefixOf (c :: cs) with
      | false =>
        simp only [subScanF, matchFreeF, hp] at h ⊢
        simp only [Bool.false_eq_true, if_false] at h ⊢
        exact congrArg (c :: ·) (ih cs h)
      | true =>
        cases hm : findClose c0 ct ((c :: cs).drop (o0 :: ot).length) with
        | some p =>
          simp only [matchFreeF, hp, if_true, hm] at h
          exact absurd h (by decide)
        | none =>
          simp only [subScanF, matchFreeF, hp, if_true, hm] at h ⊢
          exact congrArg (c :: ·) (ih cs h)

/-- A text with no dollar sign has no occurrence of the closing `$`. -/
theorem scanClose_dollar_none : ∀ l : List Char, dollarCount l = 0 →
    scanClose '$' [] l = none := by
  intro l
  induction l with
  | nil => intro _; rfl
  | cons c cs ih =>
    intro h
    have hc : ¬ c = '$' := by
      intro hc
      rw [dollarCount, if_pos hc] at h
      omega
    have hcs : dollarCount cs = 0 := by
      rw [dollarCount] at h
      omega
    have hp : (['$'] : List Char).isPrefixOf (c :: cs) = false := by
      simp only [List.isPrefixOf, Bool.and_eq_false_iff]
      left
      simp only [beq_eq_false_iff_ne, ne_eq]
      exact fun hh => hc hh.symm
    simp only [scanClose, hp, Bool.false_eq_true, if_false, ih hcs]

/-- A text with no dollar sign yields no lazy close for the inline rule. -/
theorem findClose_dollar_none : ∀ l : List Char, dollarCount l = 0 →
    findClose '$' [] l = none := by
  intro l h
  cases l with
  | nil => rfl
  | cons c cs =>
    have hcs : dollarCount cs = 0 := by
      rw [dollarCount] at h
      omega
    simp only [findClose, scanClose_dollar_none cs hcs]

/-- The inline rule needs two dollar signs: on a text holding at most one,
the inline substitution is the identity (for any fuel). -/
theorem subScanF_inline_eq_self : ∀ (fuel : Nat) (l : List Char), dollarCount l ≤ 1 →
    subScanF '$' [] '$' [] inline_sub fuel l = l := by
  intro fuel
  induction fuel with
  | zero => intro l _; rfl
  | succ n ih =>
    intro l h
    cases l with
    | nil => rfl
    | cons c cs =>
      by_cases hc : c = '$'
      · subst hc
        have hcs : dollarCount cs = 0 := by
          rw [dollarCount, if_pos rfl] at h
          omega
        have hp : (['$'] : List Char).isPrefixOf ('$' :: cs) = true := by
          simp [List.isPrefixOf]
        have hf : findClose '$' [] (('$' :: cs).drop (['$'] : List Char).length) = none := by
          simpa using findClose_dollar_none cs hcs
        simp only [subScanF, hp, if_true, hf]
        exact congrArg ('$' :: ·) (ih cs (by omega))
      · have hp : (['$'] : List Char).isPrefixOf (c :: cs) = false := by
          simp only [List.isPrefixOf, Bool.and_eq_false_iff]
          left
          simp only [beq_eq_false_iff_ne, ne_eq]
          exact fun hh => hc hh.symm
        have hcs : dollarCount cs ≤ 1 := by
          rw [dollarCount] at h
          omega
        simp only [subScanF, hp, Bool.false_eq_true, if_false]
        exact congrArg (c :: ·) (ih cs hcs)

/-- Characterises a missing/blank field in terms of the code's check. -/
theorem pyStrip_pyOr_empty (v : Option (List Char)) :
    (v = none ∨ ∃ w, v = some w ∧ pyStrip w = []) → pyStrip (pyOr v []) = [] := by
  rintro (rfl | ⟨w, rfl, hw⟩)
  · rfl
  · by_cases h : w = []
    · simp [pyOr, h]
      rfl
    · simpa [pyOr, h] using hw

/-! Claim theorems. -/

/-- Claim C2 (amended): in `decorate_equations` the block delimiters are
replaced before the inline delimiters are evaluated — the inline pass runs
on the output of the block pass — and whenever the block-pass output holds
at most one dollar sign in total, the inline rule rewrites nothing, so that
output (in particular a block-level container holding a single literal
dollar sign) is left intact and no inline-level container is produced. -/
theorem c2_block_pass_first :
    (∀ t : List Char, decorate_equations t = inlineSub (blockSub t)) ∧
    (∀ t : List Char, dollarCount (blockSub t) ≤ 1 →
      decorate_equations t = blockSub t) := by
  constructor
  · intro t
    rfl
  · intro t h
    exact subScanF_inline_eq_self (blockSub t).length (blockSub t) h

/-- Witness for C2: a block expression holding one literal dollar sign,
with no other dollar sign left after the block pass, survives the inline
pass untouched. -/
theorem c2_block_pass_first_witness :
    dollarCount (blockSub "see \\[a$b\\] there".toList) ≤ 1 ∧
    decorate_equations "see \\[a$b\\] there".toList =
      blockSub "see \\[a$b\\] there".toList :=
  ⟨by decide, c2_block_pass_first.2 "see \\[a$b\\] there".toList (by decide)⟩

/-- Counterexample for C2 as stated: the input `\[$x$\]` is a block
expression containing two literal dollar signs, yet the decorated output
does contain an inline-level container — the inline rule re-matches the
dollar signs inside the block replacement, splitting it. -/
theorem c2_counterexample :
    containsSub "equation-inline".toList
      (decorate_equations "\\[$x$\\]".toList) = true := by
  decide

/-- Claim C7: `decorate_equations` is the identity on any text in which
neither the block rule nor the inline rule finds a remaining match, hence
idempotent there. -/
theorem c7_decorate_identity_on_pair_free :
    ∀ t : List Char, noBlockPair t = true → noInlinePair t = true →
      decorate_equations t = t := by
  intro t hb hi
  have h1 : blockSub t = t :=
    subScanF_eq_self '\\' ['['] '\\' [']'] block_sub t.length t hb
  show inlineSub (blockSub t) = t
  rw [h1]
  exact subScanF_eq_self '$' [] '$' [] inline_sub t.length t hi

/-- Witness for C7: a decorated-looking text with a stray dollar sign and
no remaining delimiter pair is returned unchanged. -/
theorem c7_decorate_identity_witness :
    noBlockPair "<p>Cost: $5; done.</p>".toList = true ∧
    noInlinePair "<p>Cost: $5; done.</p>".toList = true ∧
    decorate_equations "<p>Cost: $5; done.</p>".toList =
      "<p>Cost: $5; done.</p>".toList :=
  ⟨by decide, by decide,
    c7_decorate_identity_on_pair_free "<p>Cost: $5; done.</p>".toList
      (by decide) (by decide)⟩

/-- Claim C1: when `title` or `topic` is missing or trims to the empty
string, `/generate` answers 400 with the validation message, calls neither
the completion backend nor the PDF renderer, and leaves the store as it
was. -/
theorem c1_validation_error :
    ∀ (req : GenRequest) (store : Store)
      (backend : List Char → List Char → Except (List Char) (Option (List Char)))
      (renderer : List Char → Except (List Char) (List Nat)) (file_id : List Char),
      ((req.title = none ∨ ∃ v, req.title = some v ∧ pyStrip v = []) ∨
       (req.topic = none ∨ ∃ v, req.topic = some v ∧ pyStrip v = [])) →
      generate req store backend renderer file_id =
        { status := 400, ok := false, error := some validationMsg, result_html := none,
          pdf_id := none, pdf_filename := none, store := store,
          backendCalled := false, rendererCalled := false, rendererInput := none } := by
  intro req store backend renderer file_id h
  have hcond : normTitle req = [] ∨ normTopic req = [] := by
    rcases h with h | h
    · exact Or.inl (pyStrip_pyOr_empty req.title h)
    · exact Or.inr (pyStrip_pyOr_empty req.topic h)
  simp only [generate]
  rw [if_pos hcond]

/-- Witness for C1: a request whose title trims to nothing is rejected with
400, no external call, store untouched. -/
theorem c1_validation_error_witness :
    generate ⟨some "   ".toList, some "Statics".toList, none, none, none, none, none⟩
      [("old".toList, [7])] (fun _ _ => Except.ok (some "x".toList))
      (fun _ => Except.ok [1]) "fid".toList =
      { status := 400, ok := false, error := some validationMsg, result_html := none,
        pdf_id := none, pdf_filename := none, store := [("old".toList, [7])],
        backendCalled := false, rendererCalled := false, rendererInput := none } :=
  c1_validation_error _ _ _ _ _
    (Or.inl (Or.inr ⟨"   ".toList, rfl, by decide⟩))

/-- An optional field that is absent or the empty string falls back to the
(already-stripped) default. -/
theorem normOpt_default (v : Option (List Char)) (d : List Char) (hd : pyStrip d = d) :
    (v = none ∨ v = some []) → pyStrip (pyOr v d) = d := by
  rintro (rfl | rfl) <;> simpa [pyOr] using hd

/-- An optional field that is supplied non-empty is used (trimmed). -/
theorem normOpt_supplied (v : Option (List Char)) (d w : List Char)
    (h : v = some w) (hw : w ≠ []) : pyStrip (pyOr v d) = pyStrip w := by
  subst h
  simp [pyOr, hw]

/-- Claim C4 (amended): each optional scalar field (grade, duration,
driving question, constraints) is the trimmed request value when supplied
non-empty and the fixed default when absent or empty; each normalized
field depends only on its own request field, so supplying one field leaves
the others' defaults intact.  The ordered list of output sections, by
contrast, is not taken from the request: a supplied `sections` key changes
nothing about the route's response, and the user brief carries the fixed
hard-coded section block for every input. -/
theorem c4_defaults_per_field :
    (∀ req : GenRequest, (req.grade = none ∨ req.grade = some []) →
      normGrade req = DEFAULTS_grade) ∧
    (∀ (req : GenRequest) (v : List Char), req.grade = some v → v ≠ [] →
      normGrade req = pyStrip v) ∧
    (∀ req : GenRequest, (req.duration_weeks = none ∨ req.duration_weeks = some []) →
      normDuration req = DEFAULTS_duration_weeks) ∧
    (∀ (req : GenRequest) (v : List Char), req.duration_weeks = some v → v ≠ [] →
      normDuration req = pyStrip v) ∧
    (∀ req : GenRequest, (req.driving_question = none ∨ req.driving_question = some []) →
      normDrivingQuestion req = DEFAULTS_driving_question) ∧
    (∀ (req : GenRequest) (v : List Char), req.driving_question = some v → v ≠ [] →
      normDrivingQuestion req = pyStrip v) ∧
    (∀ req : GenRequest, (req.constraints = none ∨ req.constraints = some []) →
      normConstraints req = DEFAULTS_constraints) ∧
    (∀ (req : GenRequest) (v : List Char), req.constraints = some v → v ≠ [] →
      normConstraints req = pyStrip v) ∧
    (∀ r1 r2 : GenRequest, r1.grade = r2.grade → normGrade r1 = normGrade r2) ∧
    (∀ r1 r2 : GenRequest, r1.duration_weeks = r2.duration_weeks →
      normDuration r1 = normDuration r2) ∧
    (∀ r1 r2 : GenRequest, r1.driving_question = r2.driving_question →
      normDrivingQuestion r1 = normDrivingQuestion r2) ∧
    (∀ r1 r2 : GenRequest, r1.constraints = r2.constraints →
      normConstraints r1 = normConstraints r2) ∧
    (∀ (r1 r2 : GenRequest) (store : Store)
      (backend : List Char → List Char → Except (List Char) (Option (List Char)))
      (renderer : List Char → Except (List Char) (List Nat)) (file_id : List Char),
      r1.title = r2.title → r1.topic = r2.topic → r1.grade = r2.grade →
      r1.duration_weeks = r2.duration_weeks →
      r1.driving_question = r2.driving_question → r1.constraints = r2.constraints →
      generate r1 store backend renderer file_id =
        generate r2 store backend renderer file_id) ∧
    (∀ title topic grade duration_weeks driving_question constraints pbl_rules : List Char,
      requiredSectionsBlock <:+:
        user_brief title topic grade duration_weeks driving_question constraints pbl_rules) := by
  refine ⟨fun req h => normOpt_default _ _ (by decide) h,
    fun req v h hv => normOpt_supplied _ _ _ h hv,
    fun req h => normOpt_default _ _ (by decide) h,
    fun req v h hv => normOpt_supplied _ _ _ h hv,
    fun req h => normOpt_default _ _ (by decide) h,
    fun req v h hv => normOpt_supplied _ _ _ h hv,
    fun req h => normOpt_default _ _ (by decide) h,
    fun req v h hv => normOpt_supplied _ _ _ h hv,
    fun r1 r2 h => by unfold normGrade; rw [h],
    fun r1 r2 h => by unfold normDuration; rw [h],
    fun r1 r2 h => by unfold normDrivingQuestion; rw [h],
    fun r1 r2 h => by unfold normConstraints; rw [h],
    fun r1 r2 store backend renderer file_id h1 h2 h3 h4 h5 h6 => by
      have e1 : normTitle r1 = normTitle r2 := by unfold normTitle; rw [h1]
      have e2 : normTopic r1 = normTopic r2 := by unfold normTopic; rw [h2]
      have e3 : normGrade r1 = normGrade r2 := by unfold normGrade; rw [h3]
      have e4 : normDuration r1 = normDuration r2 := by unfold normDuration; rw [h4]
      have e5 : normDrivingQuestion r1 = normDrivingQuestion r2 := by
        unfold normDrivingQuestion; rw [h5]
      have e6 : normConstraints r1 = normConstraints r2 := by unfold normConstraints; rw [h6]
      simp only [generate, e1, e2, e3, e4, e5, e6],
    fun title topic grade duration_weeks driving_question constraints pbl_rules => ?_⟩
  refine ⟨"\nPROJECT BRIEF INPUTS\n- Title: ".toList ++ title ++
    "\n- Topic/Subject: ".toList ++ topic ++
    "\n- Grade/Level: ".toList ++ grade ++
    "\n- Duration: ".toList ++ duration_weeks ++
    " weeks\n- Driving Question: ".toList ++ driving_question ++
    "\n- Constraints: ".toList ++ constraints ++
    "\n\nPBL RULES TO REFLECT\n".toList ++ pbl_rules ++ "\n\n".toList,
    briefStyleRules, ?_⟩
  simp [user_brief, List.append_assoc]

/-- Witness for C4 (amended): supplying only `grade` (with
`driving_question` sent as the empty string) keeps every other optional
field at its default, and adding a `sections` key to the same body leaves
the route's response untouched. -/
theorem c4_defaults_per_field_witness :
    normGrade ⟨some "Bridges".toList, some "Statics".toList, some "Grade 11".toList,
        none, some [], none, none⟩ = pyStrip "Grade 11".toList ∧
    normDuration ⟨some "Bridges".toList, some "Statics".toList, some "Grade 11".toList,
        none, some [], none, none⟩ = DEFAULTS_duration_weeks ∧
    normDrivingQuestion ⟨some "Bridges".toList, some "Statics".toList, some "Grade 11".toList,
        none, some [], none, none⟩ = DEFAULTS_driving_question ∧
    normConstraints ⟨some "Bridges".toList, some "Statics".toList, some "Grade 11".toList,
        none, some [], none, none⟩ = DEFAULTS_constraints ∧
    generate ⟨some "Bridges".toList, some "Statics".toList, some "Grade 11".toList,
        none, some [], none, some ["Intro".toList]⟩ []
      (fun _ _ => Except.ok (some "b".toList)) (fun _ => Except.ok [1]) "fid".toList =
    generate ⟨some "Bridges".toList, some "Statics".toList, some "Grade 11".toList,
        none, some [], none, none⟩ []
      (fun _ _ => Except.ok (some "b".toList)) (fun _ => Except.ok [1]) "fid".toList ∧
    requiredSectionsBlock <:+:
      user_brief "Bridges".toList "Statics".toList "Grade 11".toList
        DEFAULTS_duration_weeks DEFAULTS_driving_question DEFAULTS_constraints
        DEFAULTS_pbl_rules :=
  ⟨c4_defaults_per_field.2.1 _ "Grade 11".toList rfl (by decide),
   c4_defaults_per_field.2.2.1 _ (Or.inl rfl),
   c4_defaults_per_field.2.2.2.2.1 _ (Or.inr rfl),
   c4_defaults_per_field.2.2.2.2.2.2.1 _ (Or.inl rfl),
   c4_defaults_per_field.2.2.2.2.2.2.2.2.2.2.2.2.1 _ _ _ _ _ _ rfl rfl rfl rfl rfl rfl,
   c4_defaults_per_field.2.2.2.2.2.2.2.2.2.2.2.2.2 _ _ _ _ _ _ _⟩

set_option maxRecDepth 40000 in
/-- Counterexample for C4 as stated: a request that does supply an ordered
section list (`sections = ["My Custom Section"]`) has it ignored — the
brief the backend receives (echoed back through the error field here) is
built purely from the scalar fields, does not contain the supplied section
name, and the whole response is identical to the one for the same body
without the `sections` key; the brief carries the fixed hard-coded block
instead. -/
theorem c4_counterexample :
    (generate ⟨some "T".toList, some "S".toList, none, none, none, none,
        some ["My Custom Section".toList]⟩ []
      (fun _ ub => Except.error ub) (fun _ => Except.ok [1]) "fid".toList).error =
      some (user_brief "T".toList "S".toList DEFAULTS_grade DEFAULTS_duration_weeks
        DEFAULTS_driving_question DEFAULTS_constraints DEFAULTS_pbl_rules) ∧
    containsSub "My Custom Section".toList
      (user_brief "T".toList "S".toList DEFAULTS_grade DEFAULTS_duration_weeks
        DEFAULTS_driving_question DEFAULTS_constraints DEFAULTS_pbl_rules) = false ∧
    generate ⟨some "T".toList, some "S".toList, none, none, none, none,
        some ["My Custom Section".toList]⟩ []
      (fun _ ub => Except.error ub) (fun _ => Except.ok [1]) "fid".toList =
    generate ⟨some "T".toList, some "S".toList, none, none, none, none, none⟩ []
      (fun _ ub => Except.error ub) (fun _ => Except.ok [1]) "fid".toList := by
  refine ⟨rfl, by decide, rfl⟩

/-- Claim C5: on a valid request, a failing backend call or a failing PDF
render makes `/generate` answer 500 with `ok:false` and the failure's
message, create no identifier, and hand the store back exactly as it was. -/
theorem c5_failure_leaves_store :
    ∀ (req : GenRequest) (store : Store)
      (backend : List Char → List Char → Except (List Char) (Option (List Char)))
      (renderer : List Char → Except (List Char) (List Nat)) (file_id e : List Char),
      normTitle req ≠ [] → normTopic req ≠ [] →
      ((backend system_prompt
          (user_brief (normTitle req) (normTopic req) (normGrade req) (normDuration req)
            (normDrivingQuestion req) (normConstraints req) DEFAULTS_pbl_rules) =
          Except.error e →
        generate req store backend renderer file_id =
          { status := 500, ok := false, error := some e, result_html := none,
            pdf_id := none, pdf_filename := none, store := store,
            backendCalled := true, rendererCalled := false, rendererInput := none }) ∧
       (∀ content : Option (List Char),
        backend system_prompt
          (user_brief (normTitle req) (normTopic req) (normGrade req) (normDuration req)
            (normDrivingQuestion req) (normConstraints req) DEFAULTS_pbl_rules) =
          Except.ok content →
        renderer (build_shell_html
            (build_cover_html (normTitle req) (normTopic req) (normGrade req)
              (normDuration req) (normDrivingQuestion req) (normConstraints req))
            (decorate_equations (pyStrip (pyOr content [])))) = Except.error e →
        generate req store backend renderer file_id =
          { status := 500, ok := false, error := some e, result_html := none,
            pdf_id := none, pdf_filename := none, store := store,
            backendCalled := true, rendererCalled := true,
            rendererInput := some (build_shell_html
              (build_cover_html (normTitle req) (normTopic req) (normGrade req)
                (normDuration req) (normDrivingQuestion req) (normConstraints req))
              (decorate_equations (pyStrip (pyOr content [])))) })) := by
  intro req store backend renderer file_id e ht hp
  have hcond : ¬ (normTitle req = [] ∨ normTopic req = []) := by
    rintro (h | h)
    · exact ht h
    · exact hp h
  constructor
  · intro hb
    simp only [generate]
    rw [if_neg hcond, hb]
  · intro content hb hr
    simp only [generate]
    rw [if_neg hcond, hb]
    simp only []
    rw [hr]

/-- Witness for C5: a backend network fault on a valid request yields 500
and the untouched store. -/
theorem c5_failure_leaves_store_witness :
    generate ⟨some "Bridges".toList, some "Statics".toList, none, none, none, none, none⟩
      [("old".toList, [7])] (fun _ _ => Except.error "boom".toList)
      (fun _ => Except.ok [1]) "fid".toList =
      { status := 500, ok := false, error := some "boom".toList, result_html := none,
        pdf_id := none, pdf_filename := none, store := [("old".toList, [7])],
        backendCalled := true, rendererCalled := false, rendererInput := none } :=
  ((c5_failure_leaves_store _ _ _ _ _ "boom".toList (by decide) (by decide)).1) rfl

/-- Claim C3 (amended): when the backend returns a null or blank completion
body on a valid request, `/generate` substitutes the empty string and
continues instead of failing: the renderer is still called, and the body
fragment every downstream stage receives is the empty text, not a
non-empty placeholder. -/
theorem c3_empty_body_passes_empty :
    ∀ (req : GenRequest) (store : Store)
      (backend : List Char → List Char → Except (List Char) (Option (List Char)))
      (renderer : List Char → Except (List Char) (List Nat))
      (file_id : List Char) (content : Option (List Char)),
      normTitle req ≠ [] → normTopic req ≠ [] →
      backend system_prompt
        (user_brief (normTitle req) (normTopic req) (normGrade req) (normDuration req)
          (normDrivingQuestion req) (normConstraints req) DEFAULTS_pbl_rules) =
        Except.ok content →
      pyStrip (pyOr content []) = [] →
      (generate req store backend renderer file_id).backendCalled = true ∧
      (generate req store backend renderer file_id).rendererCalled = true ∧
      (generate req store backend renderer file_id).rendererInput =
        some (build_shell_html
          (build_cover_html (normTitle req) (normTopic req) (normGrade req)
            (normDuration req) (normDrivingQuestion req) (normConstraints req)) []) := by
  intro req store backend renderer file_id content ht hp hb hempty
  have hcond : ¬ (normTitle req = [] ∨ normTopic req = []) := by
    rintro (h | h)
    · exact ht h
    · exact hp h
  have hfrag : decorate_equations (pyStrip (pyOr content [])) = [] := by
    rw [hempty]
    rfl
  simp only [generate]
  rw [if_neg hcond, hb]
  simp only [hfrag]
  cases hr : renderer (build_shell_html
      (build_cover_html (normTitle req) (normTopic req) (normGrade req)
        (normDuration req) (normDrivingQuestion req) (normConstraints req)) []) with
  | error err => exact ⟨rfl, rfl, rfl⟩
  | ok pdf => exact ⟨rfl, rfl, rfl⟩

/-- Witness for C3 (amended): a null backend body on a valid request still
reaches the renderer, with the empty fragment in the assembled page. -/
theorem c3_empty_body_passes_empty_witness :
    (generate ⟨some "T".toList, some "S".toList, none, none, none, none, none⟩ []
      (fun _ _ => Except.ok none) (fun _ => Except.ok [1]) "fid".toList).backendCalled = true ∧
    (generate ⟨some "T".toList, some "S".toList, none, none, none, none, none⟩ []
      (fun _ _ => Except.ok none) (fun _ => Except.ok [1]) "fid".toList).rendererCalled = true ∧
    (generate ⟨some "T".toList, some "S".toList, none, none, none, none, none⟩ []
      (fun _ _ => Except.ok none) (fun _ => Except.ok [1]) "fid".toList).rendererInput =
      some (build_shell_html
        (build_cover_html "T".toList "S".toList DEFAULTS_grade DEFAULTS_duration_weeks
          DEFAULTS_driving_question DEFAULTS_constraints) []) :=
  c3_empty_body_passes_empty _ _ _ _ _ none (by decide) (by decide) rfl rfl

/-- Counterexample for C3 as stated: with a null backend body the pipeline
succeeds, but the generated fragment handed downstream and echoed as
`result_html` is the empty string — there is no non-empty placeholder. -/
theorem c3_counterexample :
    (generate ⟨some "T".toList, some "S".toList, none, none, none, none, none⟩ []
      (fun _ _ => Except.ok none) (fun _ => Except.ok [1])
      "fid".toList).result_html = some [] ∧
    (generate ⟨some "T".toList, some "S".toList, none, none, none, none, none⟩ []
      (fun _ _ => Except.ok none) (fun _ => Except.ok [1])
      "fid".toList).ok = true := by
  exact ⟨rfl, rfl⟩

/-- Claim C6 (amended): `put` followed immediately by lookup of the
returned identifier finds exactly the stored bytes: the raw store lookup
returns them for every byte string, and the download route returns them
whenever they are non-empty (empty stored bytes are reported NotFound by
the route's truthiness check). -/
theorem c6_put_get_roundtrip :
    ∀ (store : Store) (file_id : List Char) (b : List Nat),
      storeGet (put store file_id b).1 (put store file_id b).2 = some b ∧
      (b ≠ [] →
        (download (put store file_id b).1 (put store file_id b).2).1 =
          DlResult.file b dlFilename) := by
  intro store file_id b
  constructor
  · simp [put, storeGet]
  · intro hb
    simp [put, download, storeGet, hb]

/-- Witness for C6 (amended): freshly stored non-empty bytes are returned
exactly by both the lookup and the download route. -/
theorem c6_put_get_roundtrip_witness :
    storeGet (put [("old".toList, [9])] "new".toList [1, 2]).1
      (put [("old".toList, [9])] "new".toList [1, 2]).2 = some [1, 2] ∧
    (download (put [("old".toList, [9])] "new".toList [1, 2]).1
      (put [("old".toList, [9])] "new".toList [1, 2]).2).1 =
      DlResult.file [1, 2] dlFilename :=
  ⟨(c6_put_get_roundtrip _ _ _).1, (c6_put_get_roundtrip _ _ _).2 (by decide)⟩

/-- Counterexample for C6 as stated: storing the empty byte string and
immediately downloading the returned identifier yields NotFound, not the
stored bytes. -/
theorem c6_counterexample :
    (download (put [] "abc".toList []).1 (put [] "abc".toList []).2).1 =
      DlResult.notFound := by
  rfl

/-- Claim C8 (amended): the download route consumes nothing — it leaves
the store unchanged, and looking the same identifier up again returns the
same bytes (retrieve-many semantics, not exactly-once). -/
theorem c8_download_retrieve_many :
    ∀ (store : Store) (file_id : List Char) (b : List Nat),
      storeGet store file_id = some b → b ≠ [] →
      (download store file_id).1 = DlResult.file b dlFilename ∧
      (download store file_id).2 = store ∧
      (download (download store file_id).2 file_id).1 = DlResult.file b dlFilename := by
  intro store file_id b h hb
  refine ⟨?_, rfl, ?_⟩ <;> simp [download, h, hb]

/-- Witness for C8 (amended): a stored artifact is retrieved twice in a
row, identically. -/
theorem c8_download_retrieve_many_witness :
    (download [("a".toList, [1])] "a".toList).1 = DlResult.file [1] dlFilename ∧
    (download [("a".toList, [1])] "a".toList).2 = [("a".toList, [1])] ∧
    (download (download [("a".toList, [1])] "a".toList).2 "a".toList).1 =
      DlResult.file [1] dlFilename :=
  c8_download_retrieve_many _ _ [1] (by decide) (by decide)

/-- Counterexample for C8 as stated: after a first successful retrieval
the entry is not consumed — a second lookup of the same identifier returns
the bytes again. -/
theorem c8_counterexample :
    (download [("a".toList, [1])] "a".toList).1 = DlResult.file [1] dlFilename ∧
    (download (download [("a".toList, [1])] "a".toList).2 "a".toList).1 =
      DlResult.file [1] dlFilename := by
  exact ⟨rfl, rfl⟩

/-- The filename the spec's words describe: whitespace replaced (by
underscores) and the title lower-cased into a slug, `.pdf` appended.
Stated only for comparison with the code's `suggested_filename`. -/
def specSlugFilename (title : List Char) : List Char :=
  (title.map (fun c => if pyIsSpace c then '_' else c.toLower)) ++ ".pdf".toList

/-- Claim C9 (amended): on every successful generation the suggested
filename is the title with each space replaced by an underscore and
`.pdf` appended — no lower-casing takes place. -/
theorem c9_filename_no_lowercasing :
    ∀ (req : GenRequest) (store : Store)
      (backend : List Char → List Char → Except (List Char) (Option (List Char)))
      (renderer : List Char → Except (List Char) (List Nat))
      (file_id : List Char) (content : Option (List Char)) (pdf : List Nat),
      normTitle req ≠ [] → normTopic req ≠ [] →
      backend system_prompt
        (user_brief (normTitle req) (normTopic req) (normGrade req) (normDuration req)
          (normDrivingQuestion req) (normConstraints req) DEFAULTS_pbl_rules) =
        Except.ok content →
      renderer (build_shell_html
          (build_cover_html (normTitle req) (normTopic req) (normGrade req)
            (normDuration req) (normDrivingQuestion req) (normConstraints req))
          (decorate_equations (pyStrip (pyOr content [])))) = Except.ok pdf →
      (generate req store backend renderer file_id).pdf_filename =
        some (suggested_filename (normTitle req)) := by
  intro req store backend renderer file_id content pdf ht hp hb hr
  have hcond : ¬ (normTitle req = [] ∨ normTopic req = []) := by
    rintro (h | h)
    · exact ht h
    · exact hp h
  simp only [generate]
  rw [if_neg hcond, hb]
  simp only []
  rw [hr]

/-- Witness for C9 (amended): the suggested filename for title
`"My Lab"` is `"My_Lab.pdf"`. -/
theorem c9_filename_no_lowercasing_witness :
    (generate ⟨some "My Lab".toList, some "S".toList, none, none, none, none, none⟩ []
      (fun _ _ => Except.ok (some "b".toList)) (fun _ => Except.ok [9])
      "fid".toList).pdf_filename = some (suggested_filename "My Lab".toList) :=
  c9_filename_no_lowercasing _ _ _ _ _ (some "b".toList) [9]
    (by decide) (by decide) rfl rfl

/-- Counterexample for C9 as stated: for the title `"Physics Lab"` the
response's suggested filename keeps the capital letters —
`"Physics_Lab.pdf"` — which differs from the lower-cased slug the claim
describes. -/
theorem c9_counterexample :
    (generate ⟨some "Physics Lab".toList, some "Mechanics".toList, none, none, none, none, none⟩ []
      (fun _ _ => Except.ok (some "b".toList)) (fun _ => Except.ok [9])
      "fid".toList).pdf_filename = some "Physics_Lab.pdf".toList ∧
    "Physics_Lab.pdf".toList ≠ specSlugFilename "Physics Lab".toList := by
  constructor
  · rfl
  · decide

/-- Claim C10: the download route decides presence by truthiness, so an
issued identifier whose stored bytes are empty is answered NotFound, not
with the zero-length bytes. -/
theorem c10_empty_bytes_not_found :
    ∀ (store : Store) (file_id : List Char),
      storeGet store file_id = some [] →
      (download store file_id).1 = DlResult.notFound := by
  intro store file_id h
  simp [download, h]

/-- Witness for C10: an entry holding empty bytes downloads as NotFound. -/
theorem c10_empty_bytes_not_found_witness :
    (download [("x".toList, [])] "x".toList).1 = DlResult.notFound :=
  c10_empty_bytes_not_found [("x".toList, [])] "x".toList (by decide)

end EduGPT
